import Mathlib

/-!
Verification development for a Things 3 database exporter.

The exporter (`export_things.py`) walks the task database (Areas, Projects,
Tasks / ActionGroups, ChecklistItems) and prints a TaskPaper/org-style plain
text outline to standard output.  A Tkinter driver (`app.py`) validates the
configuration and invokes the exporter.

This file gives a shallow embedding of the exporter: database rows become
structures, SQL queries become filters plus a stable sort on the manual
ordering index, and the incremental `print` output becomes an accumulated
string paired with an optional error (an exception aborts the remaining
output, mirroring a raised Python exception).
-/

namespace Things3

/-! ## Tag handling

`RowObjectWithTags.load_tags_from_db` normalizes each tag title by replacing
spaces and hyphens with underscores before calling `add_tag`.
`TaskObjects.add_tag` folds the three reserved titles into flags and
otherwise appends the (duplicate-free) tag.
-/

/-- Normalization of one character of a tag title: spaces and hyphens become
underscores (`title.replace(' ', '_').replace('-', '_')`). -/
def replaceTagChar (c : Char) : Char :=
  if c = ' ' ∨ c = '-' then '_' else c

/-- Tag title normalization performed by `load_tags_from_db`'s `make_tag`. -/
def makeTag (t : String) : String :=
  String.mk (t.data.map replaceTagChar)

/-- Mutable tag/flag state of a `TaskObjects` instance: `_priority`,
`_blocked`, `_idea` and the ordered literal tag list `_tags`. -/
structure TagState where
  priority : Option Nat
  blocked : Bool
  idea : Bool
  tags : List String
deriving Repr, DecidableEq

/-- Initial state set up in `TaskObjects.__init__` / `RowObjectWithTags.__init__`. -/
def initTagState : TagState := ⟨none, false, false, []⟩

/-- The `TaskObjects.add_tag` override: the reserved titles "Idea",
"Important" and "Blocked" set flags and are not added as tags; any other
title is appended when not already present. -/
def addTagT (s : TagState) (t : String) : TagState :=
  if t = "Idea" then { s with idea := true }
  else if t = "Important" then { s with priority := some 1 }
  else if t = "Blocked" then { s with blocked := true }
  else if t ∈ s.tags then s
  else { s with tags := s.tags ++ [t] }

/-- Folding `load_tags_from_db` over a list of raw tag titles (the rows
returned by the tag join query, in order). -/
def loadTagsFromTitles (titles : List String) : TagState :=
  titles.foldl (fun s t => addTagT s (makeTag t)) initTagState

/-- The plain `RowObjectWithTags.add_tag` used for Areas: append when not
already present, no reserved-title folding. -/
def plainAddTag (tags : List String) (t : String) : List String :=
  if t ∈ tags then tags else tags ++ [t]

/-- The rendered `tags` property: empty for no tags, otherwise a leading
space, each tag preceded by a colon, and a trailing colon. -/
def tagsSuffix (tags : List String) : String :=
  if tags = [] then "" else " :" ++ String.intercalate ":" tags ++ ":"

/-- The `org_priority_cookie` property. -/
def orgPriorityCookie (p : Option Nat) : String :=
  match p with
  | some k => " [#" ++ toString k ++ "]"
  | none => ""

/-- The `org_todo_keyword` property: idea, blocked, postponed (`start == 2`)
or plain TODO, in that priority order. -/
def orgTodoKeyword (s : TagState) (start : Option Int) : String :=
  if s.idea then "IDEA"
  else if s.blocked then "BLOCKED"
  else if start = some 2 then "LATER"
  else "TODO"

/-- The `indent_` helper: one leading star, one star per nesting level, and
a space. -/
def indentStr (level : Nat) : String :=
  "*" ++ String.mk (List.replicate level '*') ++ " "

/-! ## Date decoding

`TaskObjects.parse_db_date` decodes the packed integer by successive
division (day unit 128, month unit 32*128, year unit 16*32*128) and then
builds a Python `datetime.date`, which validates its fields
(1 <= year <= 9999, 1 <= month <= 12, 1 <= day <= days in month) and raises
`ValueError` otherwise.
-/

/-- Year field of a packed date: `floor(n / (16*32*128))`. -/
def dbYear (n : Nat) : Nat := n / 65536

/-- Month field: after removing the year part, `floor(rest / (32*128))`. -/
def dbMonth (n : Nat) : Nat := (n - dbYear n * 65536) / 4096

/-- Day field: after removing year and month parts, `floor(rest / 128)`. -/
def dbDay (n : Nat) : Nat := (n - dbYear n * 65536 - dbMonth n * 4096) / 128

/-- Gregorian leap year test, as in Python's `calendar.isleap`. -/
def isLeap (y : Nat) : Bool :=
  y % 4 == 0 && (y % 100 != 0 || y % 400 == 0)

/-- Number of days in a month, as validated by `datetime.date`. -/
def daysInMonth (y m : Nat) : Nat :=
  if m = 2 then (if isLeap y then 29 else 28)
  else if m = 4 ∨ m = 6 ∨ m = 9 ∨ m = 11 then 30
  else 31

/-- A validated calendar date (Python `datetime.date`). -/
structure PyDate where
  year : Nat
  month : Nat
  day : Nat
deriving Repr, DecidableEq

/-- The `parse_db_date` routine: mixed-base field extraction followed by the
`datetime.date` constructor's validation; a failed validation is the raised
`ValueError`. -/
def parseDbDate (n : Nat) : Except String PyDate :=
  if dbYear n < 1 ∨ 9999 < dbYear n then .error "year is out of range"
  else if dbMonth n < 1 ∨ 12 < dbMonth n then .error "month must be in 1..12"
  else if dbDay n < 1 ∨ daysInMonth (dbYear n) (dbMonth n) < dbDay n then
    .error "day is out of range for month"
  else .ok ⟨dbYear n, dbMonth n, dbDay n⟩

/-- Cumulative days before the first day of each month in a non-leap year,
used for the day-of-week computation behind `strftime("%a")`. -/
def monthOffset (m : Nat) : Nat :=
  [0, 31, 59, 90, 120, 151, 181, 212, 243, 273, 304, 334].getD (m - 1) 0

/-- Days strictly before January 1 of year `y` in the proleptic Gregorian
calendar. -/
def daysBeforeYear (y : Nat) : Nat :=
  365 * (y - 1) + ((y - 1) / 4 + (y - 1) / 400 - (y - 1) / 100)

/-- Python `date.toordinal`: 0001-01-01 is day 1. -/
def toOrdinal (dt : PyDate) : Nat :=
  daysBeforeYear dt.year + monthOffset dt.month +
    (if 2 < dt.month && isLeap dt.year then 1 else 0) + dt.day

/-- Abbreviated weekday name as produced by `strftime("%a")` in the C
locale; ordinal 1 (0001-01-01) is a Monday. -/
def weekdayAbbrev (dt : PyDate) : String :=
  ["Sun", "Mon", "Tue", "Wed", "Thu", "Fri", "Sat"].getD (toOrdinal dt % 7) ""

/-- Zero-pad a number to two digits (`%m`, `%d`). -/
def pad2 (n : Nat) : String :=
  if n < 10 then "0" ++ toString n else toString n

/-- Zero-pad a year to four digits (`%Y`). -/
def pad4 (n : Nat) : String :=
  if n < 10 then "000" ++ toString n
  else if n < 100 then "00" ++ toString n
  else if n < 1000 then "0" ++ toString n
  else toString n

/-- Python `d.strftime("%Y-%m-%d %a")`. -/
def strftimeDate (dt : PyDate) : String :=
  pad4 dt.year ++ "-" ++ pad2 dt.month ++ "-" ++ pad2 dt.day ++ " " ++ weekdayAbbrev dt

/-! ## Output model

`print` writes to the process's standard output.  A run's observable output
is the accumulated text together with an optional raised exception; once an
exception is raised, no further text is produced and the exception
propagates.
-/

/-- Accumulated stdout text paired with an optional raised exception. -/
abbrev ROut := String × Option String

/-- Sequence two output-producing steps: once an exception has been raised
the second step never runs. -/
def seqR (a b : ROut) : ROut :=
  match a.2 with
  | some _ => a
  | none => (a.1 ++ b.1, b.2)

/-- Run an output-producing step for each list element in order, stopping at
the first raised exception. -/
def foldR (f : α → ROut) : List α → ROut
  | [] => ("", none)
  | x :: xs => seqR (f x) (foldR f xs)

/-- One scheduling metadata line (`DEADLINE: <...>` or `SCHEDULED: <...>`),
printed only for a truthy packed-date value; a `ValueError` from
`parse_db_date` aborts before anything is printed for this line. -/
def dateLine (label : String) (v : Option Nat) : ROut :=
  match v with
  | none => ("", none)
  | some n =>
    if n = 0 then ("", none)
    else
      match parseDbDate n with
      | .ok dt => (label ++ ": <" ++ strftimeDate dt ++ ">" ++ "\n", none)
      | .error e => ("", some e)

/-- The `print_attributes` method: deadline line, then start-date line. -/
def printAttributes (deadline startDate : Option Nat) : ROut :=
  seqR (dateLine "DEADLINE" deadline) (dateLine "SCHEDULED" startDate)

/-! ## Notes rendering

`print_notes` strips the fixed XML note wrapper, splits on newlines and
replaces every HTML anchor `<a href="URL">text</a>` by its URL (the `URL`
regular expression substitution, greedy in the href group and lazy in the
anchor text).
-/

/-- Check that `pat` is an initial segment of `s`. -/
def listIsInit (pat s : List Char) : Bool :=
  match pat, s with
  | [], _ => true
  | _ :: _, [] => false
  | p :: ps, c :: cs => p == c && listIsInit ps cs

/-- First index at which `pat` occurs in `s`, if any. -/
def findSub? (pat s : List Char) : Option Nat :=
  match s with
  | [] => if listIsInit pat [] then some 0 else none
  | _ :: cs =>
    if listIsInit pat s then some 0
    else (findSub? pat cs).map (· + 1)

/-- The literal opening of the anchor pattern, `<a href="`. -/
def anchorOpen : List Char := ['<', 'a', ' ', 'h', 'r', 'e', 'f', '=', '"']

/-- The literal closing tag of the anchor pattern, `</a>`. -/
def anchorClose : List Char := ['<', '/', 'a', '>']

/-- Whether position `k` of `r` closes the greedy href group: the two
characters `">` start there and a `</a>` occurs afterwards. -/
def closesHref (r : List Char) (k : Nat) : Bool :=
  listIsInit ['"', '>'] (r.drop k) && (findSub? anchorClose (r.drop (k + 2))).isSome

/-- Largest admissible end of the greedy `(?P<url>.*)` group in `r`. -/
def bestHrefEnd (r : List Char) : Option Nat :=
  ((List.range (r.length + 1)).filter (closesHref r)).getLast?

/-- One pass of `re.sub` with the pattern
`\<a href=\"(?P<url>.*)?\"\>.*?\<\/a\>`, replacing each match by the
captured URL; `fuel` bounds the scan by the string length. -/
def urlSubChars (fuel : Nat) (s : List Char) : List Char :=
  match fuel with
  | 0 => s
  | fuel + 1 =>
    match s with
    | [] => []
    | c :: cs =>
      if listIsInit anchorOpen s then
        let r := s.drop 9
        match bestHrefEnd r with
        | some k =>
          let r2 := r.drop (k + 2)
          match findSub? anchorClose r2 with
          | some m => r.take k ++ urlSubChars fuel (r2.drop (m + 4))
          | none => c :: urlSubChars fuel cs
        | none => c :: urlSubChars fuel cs
      else c :: urlSubChars fuel cs

/-- `URL.sub(lambda m: m.group('url'), line)`. -/
def urlSub (line : String) : String :=
  String.mk (urlSubChars (line.length + 1) line.data)

/-- The fixed XML wrapper opening recognized by `print_notes`. -/
def noteOpenTag : String := "<note xml:space=\"preserve\">"

/-- Strip the note wrapper: drop the 27-character opening tag and the last
seven characters (`</note>`) when the opening tag is present. -/
def stripNoteWrap (notes : String) : String :=
  if notes.startsWith noteOpenTag then (notes.drop 27).dropRight 7 else notes

/-- The `print_notes` method: one output line per source line, each with the
anchor substitution applied and the (empty) notes indent prepended. -/
def printNotes (notes : String) : String :=
  String.join (((stripNoteWrap notes).splitOn "\n").map (fun l => urlSub l ++ "\n"))

/-- Notes are printed only when truthy (a NULL column and the empty string
are both falsy). -/
def notesR (notes : String) : ROut :=
  if notes = "" then ("", none) else (printNotes notes, none)

/-! ## Database model

One structure per table row; a database value is the content of the tables
the exporter reads.  SQL `WHERE` clauses become filters and `ORDER BY`
becomes a stable insertion sort on the ordering key.
-/

/-- A `TMArea` row (the exporter selects `uuid` and `title` and orders by
the manual `index` column). -/
structure AreaRow where
  uuid : String
  title : String
  index : Int
deriving Repr, DecidableEq

/-- A `TMTask` row restricted to the columns the exporter reads or filters
on.  Projects have `type = 1`, plain tasks `type = 0`, action groups
(headings) `type = 2`. -/
structure TaskRow where
  uuid : String
  status : Int
  title : String
  type : Int
  notes : String
  area : Option String
  project : Option String
  heading : Option String
  deadline : Option Nat
  startDate : Option Nat
  todayIndex : Option Int
  checklistItemsCount : Option Nat
  stopDate : Option Nat
  start : Option Int
  trashed : Bool
  index : Int
deriving Repr, DecidableEq

/-- A `TMChecklistItem` row. -/
structure ChecklistItemRow where
  uuid : String
  title : String
  status : Int
  task : String
  index : Int
deriving Repr, DecidableEq

/-- A `TMTag` row. -/
structure TagRow where
  uuid : String
  title : String
deriving Repr, DecidableEq

/-- A `TMTaskTag` association row. -/
structure TaskTagRow where
  tasks : String
  tags : String
deriving Repr, DecidableEq

/-- A `TMAreaTag` association row. -/
structure AreaTagRow where
  areas : String
  tags : String
deriving Repr, DecidableEq

/-- The tables of the Things 3 database read by the exporter. -/
structure ThingsDB where
  areas : List AreaRow
  tasks : List TaskRow
  checklistItems : List ChecklistItemRow
  tags : List TagRow
  taskTags : List TaskTagRow
  areaTags : List AreaTagRow
deriving Repr, DecidableEq

/-- Stable insertion of one element into a sorted list. -/
def insertSortedBy (le : α → α → Bool) (x : α) : List α → List α
  | [] => [x]
  | y :: ys => if le x y then x :: y :: ys else y :: insertSortedBy le x ys

/-- Stable insertion sort, modelling SQL `ORDER BY`. -/
def sortBy (le : α → α → Bool) : List α → List α
  | [] => []
  | x :: xs => insertSortedBy le x (sortBy le xs)

/-- `ORDER BY "index"` on tasks. -/
def sortByIndex (l : List TaskRow) : List TaskRow :=
  sortBy (fun a b => decide (a.index ≤ b.index)) l

/-- `ORDER BY type, "index"` on tasks: plain tasks before headings, then by
manual index. -/
def sortByTypeIndex (l : List TaskRow) : List TaskRow :=
  sortBy (fun a b => decide (a.type < b.type ∨ (a.type = b.type ∧ a.index ≤ b.index))) l

/-- The `Area.QUERY` top-level area listing. -/
def areasSorted (db : ThingsDB) : List AreaRow :=
  sortBy (fun a b => decide (a.index ≤ b.index)) db.areas

/-- `Project.PROJECTS_IN_AREA`. -/
def projectsInArea (db : ThingsDB) (au : String) : List TaskRow :=
  sortByIndex (db.tasks.filter
    (fun t => decide (t.type = 1 ∧ t.area = some au ∧ t.trashed = false ∧ t.status < 2)))

/-- `Project.PROJECTS_WITHOUT_AREA`. -/
def projectsWithoutArea (db : ThingsDB) : List TaskRow :=
  sortByIndex (db.tasks.filter
    (fun t => decide (t.type = 1 ∧ t.area = none ∧ t.trashed = false ∧ t.status < 2)))

/-- `Task.TASKS_IN_PROJECT`. -/
def tasksInProject (db : ThingsDB) (pu : String) : List TaskRow :=
  sortByTypeIndex (db.tasks.filter
    (fun t => decide (t.type ≠ 1 ∧ t.project = some pu ∧ t.trashed = false ∧ t.status < 2)))

/-- `Task.TASKS_IN_AREA_WITHOUT_PROJECT`. -/
def tasksInAreaWithoutProject (db : ThingsDB) (au : String) : List TaskRow :=
  sortByTypeIndex (db.tasks.filter
    (fun t => decide (t.type ≠ 1 ∧ t.area = some au ∧ t.project = none ∧
      t.trashed = false ∧ t.status < 2)))

/-- `Task.TASKS_IN_INBOX`. -/
def tasksInInbox (db : ThingsDB) : List TaskRow :=
  sortByIndex (db.tasks.filter
    (fun t => decide (t.type ≠ 1 ∧ t.project = none ∧ t.area = none ∧
      t.heading = none ∧ t.trashed = false ∧ t.status < 2)))

/-- `Task.TASKS_IN_ACTION_GROUPS`: the heading-scoped child task query. -/
def tasksInActionGroup (db : ThingsDB) (hu : String) : List TaskRow :=
  sortByIndex (db.tasks.filter
    (fun t => decide (t.type = 0 ∧ t.heading = some hu ∧ t.trashed = false ∧ t.status < 2)))

/-- `CheckListItem.items_of_task`. -/
def checklistItemsOfTask (db : ThingsDB) (u : String) : List ChecklistItemRow :=
  sortBy (fun a b => decide (a.index ≤ b.index))
    (db.checklistItems.filter (fun i => decide (i.task = u)))

/-- Titles produced by the `TMTaskTag`/`TMTag` join of
`RowObjectWithTags.TAGS_QUERY` for one task uuid. -/
def taskTagTitles (db : ThingsDB) (u : String) : List String :=
  ((db.taskTags.filter (fun tt => decide (tt.tasks = u))).map
    (fun tt => (db.tags.filter (fun g => decide (g.uuid = tt.tags))).map TagRow.title)).flatten

/-- Titles produced by the `TMAreaTag`/`TMTag` join of `Area.TAGS_QUERY`. -/
def areaTagTitles (db : ThingsDB) (u : String) : List String :=
  ((db.areaTags.filter (fun r => decide (r.areas = u))).map
    (fun r => (db.tags.filter (fun g => decide (g.uuid = r.tags))).map TagRow.title)).flatten

/-- `load_tags_from_db` on a Task or Project (reserved-title folding). -/
def loadTaskTags (db : ThingsDB) (u : String) : TagState :=
  loadTagsFromTitles (taskTagTitles db u)

/-- `load_tags_from_db` on an Area (plain normalized, duplicate-free tags). -/
def loadAreaTags (db : ThingsDB) (u : String) : List String :=
  (areaTagTitles db u).foldl (fun acc t => plainAddTag acc (makeTag t)) []

/-! ## Rendering and traversal -/

/-- One checklist line: `- [X] title` for a done item (`status > 0`), else
`- [ ] title`; the `CheckListItem` overrides make both the indent and the
tag suffix empty. -/
def renderChecklistItem (i : ChecklistItemRow) : String :=
  "- [" ++ (if 0 < i.status then "X" else " ") ++ "] " ++ i.title ++ "\n"

/-- Python truthiness of the `checklistItemsCount` column (NULL and 0 are
falsy). -/
def checklistCountTruthy : Option Nat → Bool
  | none => false
  | some n => n != 0

/-- The checklist part of `Task.export`: the `TMChecklistItem` query is
issued, and its items rendered, only when the count column is truthy. -/
def checklistR (db : ThingsDB) (t : TaskRow) : ROut :=
  if checklistCountTruthy t.checklistItemsCount then
    (String.join ((checklistItemsOfTask db t.uuid).map renderChecklistItem), none)
  else ("", none)

/-- The `TASK_TEMPLATE` line (also the body of `PROJECT_TEMPLATE`): indent,
status keyword, priority cookie, title and tag suffix, with the tag state
loaded by `load_tags_from_db` for the row's uuid. -/
def taskLine (db : ThingsDB) (level : Nat) (t : TaskRow) : String :=
  indentStr level ++ orgTodoKeyword (loadTaskTags db t.uuid) t.start ++
    orgPriorityCookie (loadTaskTags db t.uuid).priority ++ " " ++ t.title ++
    tagsSuffix (loadTaskTags db t.uuid).tags ++ "\n"

/-- The non-heading branch of `Task.export`: the task line from
`TASK_TEMPLATE`, then `print_attributes`, then notes when truthy, then the
gated checklist. -/
def exportPlain (db : ThingsDB) (level : Nat) (t : TaskRow) : ROut :=
  seqR (taskLine db level t, none)
    (seqR (printAttributes t.deadline t.startDate)
      (seqR (notesR t.notes) (checklistR db t)))

/-- The whole of `Task.export`.  An action group (`type = 2`) prints the
`ACTIONGROUP_TEMPLATE` line and recurses into the heading-scoped child
query; those children all satisfy `type = 0`, so the recursive call always
takes the plain branch, which lets the recursion be unfolded one level. -/
def exportTask (db : ThingsDB) (level : Nat) (t : TaskRow) : ROut :=
  if t.type = 2 then
    seqR (indentStr level ++ "TODO " ++ t.title ++ ":" ++ "\n", none)
      (foldR (exportPlain db (level + 1)) (tasksInActionGroup db t.uuid))
  else
    exportPlain db level t

/-- The synthetic "Inbox" pseudo-project built in `Area.export`; the
columns absent from its dict are never read by `Project.export`, so their
values here are unobservable. -/
def inboxRow : TaskRow :=
  { uuid := "NULL", status := 0, title := "Inbox", type := 1, notes := "",
    area := none, project := none, heading := none, deadline := none,
    startDate := none, todayIndex := none, checklistItemsCount := none,
    stopDate := none, start := none, trashed := false, index := 0 }

/-- `Project.export`: the `PROJECT_TEMPLATE` line (leading blank line), the
scheduling metadata lines, the notes block, then the inbox-scoped or
project-scoped child-task query. -/
def exportProject (db : ThingsDB) (level : Nat) (p : TaskRow) : ROut :=
  seqR ("\n" ++ taskLine db level p, none)
    (seqR (printAttributes p.deadline p.startDate)
      (seqR (notesR p.notes)
        (if p.uuid = "NULL" then foldR (exportTask db (level + 1)) (tasksInInbox db)
         else foldR (exportTask db (level + 1)) (tasksInProject db p.uuid))))

/-- `Area.export`: the `AREA_TEMPLATE` line (leading blank line, area tags),
then for the synthetic "NULL" area the Inbox pseudo-project followed by the
area-less projects, and for a real area the project-less tasks followed by
the area's projects, all at nesting level 1. -/
def exportArea (db : ThingsDB) (a : AreaRow) : ROut :=
  seqR ("\n" ++ indentStr 0 ++ a.title ++ ":" ++ tagsSuffix (loadAreaTags db a.uuid) ++ "\n", none)
    (if a.uuid = "NULL" then
      seqR (exportProject db 1 inboxRow) (foldR (exportProject db 1) (projectsWithoutArea db))
    else
      seqR (foldR (exportTask db 1) (tasksInAreaWithoutProject db a.uuid))
        (foldR (exportProject db 1) (projectsInArea db a.uuid)))

/-- The synthetic "no area" root built in `export`. -/
def noAreaRow : AreaRow := { uuid := "NULL", title := "no area", index := 0 }

/-- The traversal body of `export`: the synthetic "no area" root followed by
every `TMArea` row in manual order. -/
def exportBody (db : ThingsDB) : ROut :=
  seqR (exportArea db noAreaRow) (foldR (exportArea db) (areasSorted db))

/-- Observable result of one `export(args)` call: the accumulated standard
output, the propagated exception if one was raised, and whether the
`con.close()` call at the end of `export` was reached.  `con.close()` is the
last statement of `export` with no `try`/`finally` around the body, so it
runs exactly when the traversal raised no exception. -/
structure ExportResult where
  stdout : String
  err : Option String
  connClosed : Bool
deriving Repr, DecidableEq

/-- The `export(args)` entry point of `export_things.py`.  It reads only the
database behind `args.database`; the format and target options are not
consulted anywhere in the exporter. -/
def exportThings (db : ThingsDB) : ExportResult :=
  match exportBody db with
  | (out, none) => { stdout := out, err := none, connClosed := true }
  | (out, some e) => { stdout := out, err := some e, connClosed := false }

/-! ## GUI driver command

`App.cmd_things2tp` resolves the database path (default location when the
entry is empty), validates its existence and the selected format before any
database work, computes a target path, and invokes the exporter.  In
"all" mode it evaluates `export_things.RowObject.FILE_TMPL`, an attribute
that does not exist on `RowObject`, so that path raises `AttributeError`
before the exporter runs.  Exceptions raised by the exporter itself are
caught and logged.
-/

/-- Outcome of one press of the Export button.  `configError` is a
validation failure logged before any database access; `crash` is an
uncaught exception in the command itself; `ran` is an exporter run with its
standard output, the set of files the run wrote (the exporter contains no
file-writing code, so this list is always empty), and the logged exporter
exception if one was raised. -/
inductive Outcome where
  | configError (msg : String)
  | crash (msg : String)
  | ran (stdout : String) (files : List (String × String)) (err : Option String)
deriving Repr, DecidableEq

/-- Files reported by a `ran` outcome. -/
def Outcome.filesOf : Outcome → List (String × String)
  | .ran _ fs _ => fs
  | _ => []

/-- The default OS-specific database location used when no file was
selected. -/
def defaultDatabasePath : String :=
  "~/Library/Group Containers/JLMPQHK86H.com.culturedcode.ThingsMac/Things Database.thingsdatabase/main.sqlite"

/-- Database path resolution at the top of `cmd_things2tp`. -/
def resolveDatabase (filenameInput : String) : String :=
  if filenameInput = "" then defaultDatabasePath else filenameInput

/-- `App.cmd_things2tp`, with the filesystem abstracted as an existence
predicate on paths and the database file's parsed content as `db`. -/
def cmdThings2tp (fsExists : String → Bool) (filenameInput fmtInput targetInput : String)
    (db : ThingsDB) : Outcome :=
  if fsExists (resolveDatabase filenameInput) = false then
    Outcome.configError ("database '" ++ resolveDatabase filenameInput ++ "' does not exist!")
  else if ¬ (fmtInput = "all" ∨ fmtInput = "project" ∨ fmtInput = "area") then
    Outcome.configError ("unknown output format: " ++ fmtInput)
  else if fmtInput = "all" then
    Outcome.crash "AttributeError: type object RowObject has no attribute FILE_TMPL"
  else
    Outcome.ran (exportThings db).stdout [] (exportThings db).err

/-! ## Concrete fixtures -/

/-- The empty database. -/
def emptyDB : ThingsDB :=
  { areas := [], tasks := [], checklistItems := [], tags := [], taskTags := [], areaTags := [] }

/-- The minimal end-to-end fixture: one Area "Work" containing one Project
"Launch" containing one Task "Ship it" tagged "Important", with no dates,
notes or checklist. -/
def c1Launch : TaskRow :=
  { uuid := "PROJ1", status := 0, title := "Launch", type := 1, notes := "",
    area := some "AREA1", project := none, heading := none, deadline := none,
    startDate := none, todayIndex := none, checklistItemsCount := none,
    stopDate := none, start := none, trashed := false, index := 0 }

/-- The "Ship it" task of the end-to-end fixture. -/
def c1ShipIt : TaskRow :=
  { uuid := "TASK1", status := 0, title := "Ship it", type := 0, notes := "",
    area := none, project := some "PROJ1", heading := none, deadline := none,
    startDate := none, todayIndex := none, checklistItemsCount := some 0,
    stopDate := none, start := none, trashed := false, index := 0 }

/-- The end-to-end fixture database. -/
def c1db : ThingsDB :=
  { areas := [{ uuid := "AREA1", title := "Work", index := 0 }],
    tasks := [c1Launch, c1ShipIt],
    checklistItems := [],
    tags := [{ uuid := "TAG1", title := "Important" }],
    taskTags := [{ tasks := "TASK1", tags := "TAG1" }],
    areaTags := [] }

/-! ## Claim C1: the minimal end-to-end fixture -/

/-- C1 counterexample: exporting the fixture database (one Area "Work", one
Project "Launch", one Task "Ship it" tagged "Important", no dates, no
notes) in single-stream mode does not produce the claimed three-line output
consisting of one blank line, `Work::` and `TODO [#1] Ship it`. -/
theorem c1_counterexample :
    (exportThings c1db).stdout ≠ "\nWork::\nTODO [#1] Ship it\n" := by
  decide

/-- C1 (amended): exporting the fixture database in single-stream mode
completes without error and produces, in order: a blank line, the line
`* no area:` for the synthetic root, a blank line, `** TODO Inbox` for the
synthetic inbox, a blank line, `* Work:` (star indent, single colon), a
blank line, `** TODO Launch` for the project, and `*** TODO [#1] Ship it`
for the task. -/
theorem c1_amended_output :
    exportThings c1db =
      { stdout := "\n* no area:\n\n** TODO Inbox\n\n* Work:\n\n** TODO Launch\n*** TODO [#1] Ship it\n",
        err := none, connClosed := true } := by
  decide

/-! ## Claim C2: packed date round trip -/

/-- C2: for every packed date integer that is the encoding of some date
fields (equivalently, every multiple of the day unit 128 — in particular
every valid packed date in the supported range), decoding the year, month
and day fields by successive division and re-encoding them with the same
mixed-base arithmetic `year*65536 + month*4096 + day*128` returns the
original integer. -/
theorem c2_date_roundtrip (n : Nat) (h : n % 128 = 0) :
    dbYear n * 65536 + dbMonth n * 4096 + dbDay n * 128 = n := by
  simp only [dbYear, dbMonth, dbDay]
  omega

/-- C2 witness: the round trip at the encoding of 2023-10-05. -/
theorem c2_witness :
    132620928 % 128 = 0 ∧
      dbYear 132620928 * 65536 + dbMonth 132620928 * 4096 + dbDay 132620928 * 128 = 132620928 :=
  ⟨by decide, c2_date_roundtrip 132620928 (by decide)⟩

/-! ## Claim C4: reserved tag folding

Invariant lemmas about one `add_tag` step and about folding
`load_tags_from_db` over a title list.
-/

/-- Tags already collected survive an `add_tag` step. -/
lemma addTagT_mem_mono (s : TagState) (t x : String) (h : x ∈ s.tags) :
    x ∈ (addTagT s t).tags := by
  unfold addTagT
  split
  · exact h
  · split
    · exact h
    · split
      · exact h
      · split
        · exact h
        · exact List.mem_append_left _ h

/-- A non-reserved title is present after its own `add_tag` step. -/
lemma addTagT_self_mem (s : TagState) (t : String)
    (h1 : t ≠ "Idea") (h2 : t ≠ "Important") (h3 : t ≠ "Blocked") :
    t ∈ (addTagT s t).tags := by
  unfold addTagT
  rw [if_neg h1, if_neg h2, if_neg h3]
  split
  · assumption
  · exact List.mem_append_right _ (List.mem_singleton_self t)

/-- A reserved title absent from the tag list stays absent: `add_tag` only
ever inserts titles that failed all three reserved checks. -/
lemma addTagT_reserved_not_mem (s : TagState) (t x : String)
    (hres : x = "Idea" ∨ x = "Important" ∨ x = "Blocked") (h : x ∉ s.tags) :
    x ∉ (addTagT s t).tags := by
  unfold addTagT
  split
  · exact h
  · split
    · exact h
    · split
      · exact h
      · split
        · exact h
        · rename_i h1 h2 h3 h4
          intro hmem
          rcases List.mem_append.1 hmem with hmem | hmem
          · exact h hmem
          · have hx : x = t := List.mem_singleton.1 hmem
            subst hx
            rcases hres with rfl | rfl | rfl
            · exact h1 rfl
            · exact h2 rfl
            · exact h3 rfl

/-- The duplicate check keeps the tag list duplicate-free. -/
lemma addTagT_nodup (s : TagState) (t : String) (h : s.tags.Nodup) :
    (addTagT s t).tags.Nodup := by
  unfold addTagT
  split
  · exact h
  · split
    · exact h
    · split
      · exact h
      · split
        · exact h
        · rename_i h1 h2 h3 h4
          simp [List.nodup_append, h, h4]

/-- The idea flag is never cleared. -/
lemma addTagT_idea_mono (s : TagState) (t : String) (h : s.idea = true) :
    (addTagT s t).idea = true := by
  unfold addTagT
  split
  · rfl
  · split
    · exact h
    · split
      · exact h
      · split
        · exact h
        · exact h

/-- The priority flag, once set to 1, is never changed. -/
lemma addTagT_priority_mono (s : TagState) (t : String) (h : s.priority = some 1) :
    (addTagT s t).priority = some 1 := by
  unfold addTagT
  split
  · exact h
  · split
    · rfl
    · split
      · exact h
      · split
        · exact h
        · exact h

/-- The blocked flag is never cleared. -/
lemma addTagT_blocked_mono (s : TagState) (t : String) (h : s.blocked = true) :
    (addTagT s t).blocked = true := by
  unfold addTagT
  split
  · exact h
  · split
    · exact h
    · split
      · rfl
      · split
        · exact h
        · exact h

/-- Folding `add_tag` over titles keeps collected tags. -/
lemma foldTags_mem_mono (titles : List String) (s : TagState) (x : String) (h : x ∈ s.tags) :
    x ∈ (titles.foldl (fun s t => addTagT s (makeTag t)) s).tags := by
  induction titles generalizing s with
  | nil => exact h
  | cons u us ih => exact ih _ (addTagT_mem_mono _ _ _ h)

/-- Folding `add_tag` over titles keeps a reserved title out of the tag
list. -/
lemma foldTags_reserved_not_mem (titles : List String) (s : TagState) (x : String)
    (hres : x = "Idea" ∨ x = "Important" ∨ x = "Blocked") (h : x ∉ s.tags) :
    x ∉ (titles.foldl (fun s t => addTagT s (makeTag t)) s).tags := by
  induction titles generalizing s with
  | nil => exact h
  | cons u us ih => exact ih _ (addTagT_reserved_not_mem _ _ _ hres h)

/-- Folding `add_tag` over titles preserves duplicate-freedom. -/
lemma foldTags_nodup (titles : List String) (s : TagState) (h : s.tags.Nodup) :
    (titles.foldl (fun s t => addTagT s (makeTag t)) s).tags.Nodup := by
  induction titles generalizing s with
  | nil => exact h
  | cons u us ih => exact ih _ (addTagT_nodup _ _ h)

/-- Folding `add_tag` over titles preserves the idea flag. -/
lemma foldTags_idea_mono (titles : List String) (s : TagState) (h : s.idea = true) :
    (titles.foldl (fun s t => addTagT s (makeTag t)) s).idea = true := by
  induction titles generalizing s with
  | nil => exact h
  | cons u us ih => exact ih _ (addTagT_idea_mono _ _ h)

/-- Folding `add_tag` over titles preserves the priority flag. -/
lemma foldTags_priority_mono (titles : List String) (s : TagState) (h : s.priority = some 1) :
    (titles.foldl (fun s t => addTagT s (makeTag t)) s).priority = some 1 := by
  induction titles generalizing s with
  | nil => exact h
  | cons u us ih => exact ih _ (addTagT_priority_mono _ _ h)

/-- Folding `add_tag` over titles preserves the blocked flag. -/
lemma foldTags_blocked_mono (titles : List String) (s : TagState) (h : s.blocked = true) :
    (titles.foldl (fun s t => addTagT s (makeTag t)) s).blocked = true := by
  induction titles generalizing s with
  | nil => exact h
  | cons u us ih => exact ih _ (addTagT_blocked_mono _ _ h)

/-- A loaded non-reserved title ends up (normalized) in the tag list. -/
lemma foldTags_mem_of_elem (titles : List String) (s : TagState) (t : String)
    (ht : t ∈ titles) (h1 : makeTag t ≠ "Idea") (h2 : makeTag t ≠ "Important")
    (h3 : makeTag t ≠ "Blocked") :
    makeTag t ∈ (titles.foldl (fun s t => addTagT s (makeTag t)) s).tags := by
  induction titles generalizing s with
  | nil => cases ht
  | cons u us ih =>
    rcases List.mem_cons.1 ht with rfl | ht'
    · exact foldTags_mem_mono us _ _ (addTagT_self_mem s (makeTag t) h1 h2 h3)
    · exact ih _ ht'

/-- A loaded "Idea" title sets the idea flag. -/
lemma foldTags_idea_of_elem (titles : List String) (s : TagState) (ht : "Idea" ∈ titles) :
    (titles.foldl (fun s t => addTagT s (makeTag t)) s).idea = true := by
  induction titles generalizing s with
  | nil => cases ht
  | cons u us ih =>
    rcases List.mem_cons.1 ht with h | h
    · have hstep : (addTagT s (makeTag u)).idea = true := by
        rw [← h, show makeTag "Idea" = "Idea" from by decide]
        unfold addTagT
        rw [if_pos rfl]
      exact foldTags_idea_mono us _ hstep
    · exact ih _ h

/-- A loaded "Important" title sets the priority flag to 1. -/
lemma foldTags_important_of_elem (titles : List String) (s : TagState)
    (ht : "Important" ∈ titles) :
    (titles.foldl (fun s t => addTagT s (makeTag t)) s).priority = some 1 := by
  induction titles generalizing s with
  | nil => cases ht
  | cons u us ih =>
    rcases List.mem_cons.1 ht with h | h
    · have hstep : (addTagT s (makeTag u)).priority = some 1 := by
        rw [← h, show makeTag "Important" = "Important" from by decide]
        unfold addTagT
        rw [if_neg (by decide), if_pos rfl]
      exact foldTags_priority_mono us _ hstep
    · exact ih _ h

/-- A loaded "Blocked" title sets the blocked flag. -/
lemma foldTags_blocked_of_elem (titles : List String) (s : TagState)
    (ht : "Blocked" ∈ titles) :
    (titles.foldl (fun s t => addTagT s (makeTag t)) s).blocked = true := by
  induction titles generalizing s with
  | nil => cases ht
  | cons u us ih =>
    rcases List.mem_cons.1 ht with h | h
    · have hstep : (addTagT s (makeTag u)).blocked = true := by
        rw [← h, show makeTag "Blocked" = "Blocked" from by decide]
        unfold addTagT
        rw [if_neg (by decide), if_neg (by decide), if_pos rfl]
      exact foldTags_blocked_mono us _ hstep
    · exact ih _ h

/-- C4: over any loaded tag-title list, the three reserved literals are
folded into flags ("Idea" sets the idea flag, "Important" sets priority
level 1, "Blocked" sets the blocked flag) and never appear in the tag list;
every other title is appended normalized and duplicate-free; the rendered
tag suffix is empty for no tags and otherwise a leading space with
colon-separated tags and a trailing colon; and an "Important" tag renders
the priority cookie ` [#1]`. -/
theorem c4_tag_folding (titles : List String) :
    ("Idea" ∉ (loadTagsFromTitles titles).tags ∧
     "Important" ∉ (loadTagsFromTitles titles).tags ∧
     "Blocked" ∉ (loadTagsFromTitles titles).tags) ∧
    ("Idea" ∈ titles → (loadTagsFromTitles titles).idea = true) ∧
    ("Important" ∈ titles → (loadTagsFromTitles titles).priority = some 1) ∧
    ("Blocked" ∈ titles → (loadTagsFromTitles titles).blocked = true) ∧
    (loadTagsFromTitles titles).tags.Nodup ∧
    (∀ t ∈ titles, makeTag t ≠ "Idea" → makeTag t ≠ "Important" → makeTag t ≠ "Blocked" →
      makeTag t ∈ (loadTagsFromTitles titles).tags) ∧
    tagsSuffix (loadTagsFromTitles titles).tags =
      (if (loadTagsFromTitles titles).tags = [] then ""
       else " :" ++ String.intercalate ":" (loadTagsFromTitles titles).tags ++ ":") ∧
    ("Important" ∈ titles → orgPriorityCookie (loadTagsFromTitles titles).priority = " [#1]") := by
  unfold loadTagsFromTitles
  refine ⟨⟨?_, ?_, ?_⟩, ?_, ?_, ?_, ?_, ?_, ?_, ?_⟩
  · exact foldTags_reserved_not_mem titles initTagState _ (Or.inl rfl) (by simp [initTagState])
  · exact foldTags_reserved_not_mem titles initTagState _ (Or.inr (Or.inl rfl))
      (by simp [initTagState])
  · exact foldTags_reserved_not_mem titles initTagState _ (Or.inr (Or.inr rfl))
      (by simp [initTagState])
  · exact fun ht => foldTags_idea_of_elem titles initTagState ht
  · exact fun ht => foldTags_important_of_elem titles initTagState ht
  · exact fun ht => foldTags_blocked_of_elem titles initTagState ht
  · exact foldTags_nodup titles initTagState (by simp [initTagState])
  · exact fun t ht h1 h2 h3 => foldTags_mem_of_elem titles initTagState t ht h1 h2 h3
  · rfl
  · intro ht
    rw [foldTags_important_of_elem titles initTagState ht]
    rfl

/-- C4 witness: loading the titles "Important", "foo bar", "Idea" folds the
reserved ones into flags and keeps only the normalized literal tag. -/
theorem c4_witness :
    "Important" ∉ (loadTagsFromTitles ["Important", "foo bar", "Idea"]).tags ∧
    (loadTagsFromTitles ["Important", "foo bar", "Idea"]).priority = some 1 ∧
    (loadTagsFromTitles ["Important", "foo bar", "Idea"]).idea = true ∧
    makeTag "foo bar" ∈ (loadTagsFromTitles ["Important", "foo bar", "Idea"]).tags := by
  obtain ⟨⟨_, h2, _⟩, hidea, hpri, _, _, hmem, _, _⟩ :=
    c4_tag_folding ["Important", "foo bar", "Idea"]
  exact ⟨h2, hpri (by decide), hidea (by decide),
    hmem "foo bar" (by decide) (by decide) (by decide) (by decide)⟩

/-! ## Claim C9: determinism -/

/-- C9: the export is a deterministic function of the database contents;
two runs against the same unchanged database produce byte-identical
results. -/
theorem c9_deterministic (db1 db2 : ThingsDB) (h : db1 = db2) :
    exportThings db1 = exportThings db2 := by
  rw [h]

/-- C9 witness: two runs on the fixture-free sample database coincide. -/
theorem c9_witness : exportThings emptyDB = exportThings emptyDB :=
  c9_deterministic emptyDB emptyDB rfl

/-! ## Claim C10: the date decoder is partial -/

/-- C10: the decoder validates the decoded fields, so every input whose
decoded month is 0 or exceeds 12, or whose decoded day is 0 or exceeds the
number of days of the decoded month, makes `parse_db_date` raise instead of
returning a date; and the caller `print_attributes` guards only against a
null/zero value, so for every such non-zero input the raised error escapes
it. -/
theorem c10_decoder_partial (n : Nat)
    (h : dbMonth n = 0 ∨ 12 < dbMonth n ∨ dbDay n = 0 ∨
      daysInMonth (dbYear n) (dbMonth n) < dbDay n) :
    (parseDbDate n).isOk = false ∧
      (n ≠ 0 → (printAttributes (some n) none).1 = "" ∧
        ((printAttributes (some n) none).2).isSome = true) := by
  have hmain : (parseDbDate n).isOk = false := by
    unfold parseDbDate
    split
    · rfl
    · split
      · rfl
      · split
        · rfl
        · rename_i hy hm hd
          exfalso
          rcases h with h | h | h | h <;> omega
  refine ⟨hmain, fun hn => ?_⟩
  have herr : ∃ e, parseDbDate n = .error e := by
    cases hpd : parseDbDate n with
    | ok d => rw [hpd] at hmain; simp [Except.isOk, Except.toBool] at hmain
    | error e => exact ⟨e, rfl⟩
  obtain ⟨e, he⟩ := herr
  have hline : dateLine "DEADLINE" (some n) = ("", some e) := by
    simp only [dateLine]
    rw [if_neg hn, he]
  unfold printAttributes
  rw [hline]
  exact ⟨rfl, rfl⟩

/-- C10 witness: input 130 decodes to month 0, so the decoder raises, and
`print_attributes` with deadline 130 propagates the error while printing
nothing. -/
theorem c10_witness :
    (parseDbDate 130).isOk = false ∧
      (130 ≠ 0 → (printAttributes (some 130) none).1 = "" ∧
        ((printAttributes (some 130) none).2).isSome = true) :=
  c10_decoder_partial 130 (Or.inl (by decide))

/-! ## Claim C5: action groups -/

/-- An action-group fixture row whose notes, dates and checklist count are
all populated. -/
def c5ag : TaskRow :=
  { uuid := "AG1", status := 0, title := "Groceries", type := 2,
    notes := "these notes must never render", area := none, project := some "P5",
    heading := none, deadline := some 132620928, startDate := some 132620928,
    todayIndex := none, checklistItemsCount := some 3, stopDate := none,
    start := none, trashed := false, index := 0 }

/-- A plain child task grouped under the `c5ag` heading. -/
def c5child : TaskRow :=
  { uuid := "T5", status := 0, title := "Milk", type := 0, notes := "",
    area := none, project := some "P5", heading := some "AG1", deadline := none,
    startDate := none, todayIndex := none, checklistItemsCount := none,
    stopDate := none, start := none, trashed := false, index := 0 }

/-- Database for the action-group fixture. -/
def c5db : ThingsDB :=
  { areas := [], tasks := [c5ag, c5child], checklistItems := [], tags := [],
    taskTags := [], areaTags := [] }

/-- C5: rendering a Task row with `type = 2` emits exactly the heading line
`<indent>TODO <title>:` followed by the exports of the child tasks fetched
by the heading-scoped query (`type = 0`, matching heading, not trashed,
`status < 2`, ordered by manual index), each rendered by the plain
(non-heading) branch one level deeper; and the output is unchanged under
any values of the row's notes, deadline, start-date, checklist-count and
start fields, so an action group never emits notes, metadata or checklist
lines of its own. -/
theorem c5_actiongroup (db : ThingsDB) (level : Nat) (t : TaskRow) (h : t.type = 2) :
    exportTask db level t =
      seqR (indentStr level ++ "TODO " ++ t.title ++ ":" ++ "\n", none)
        (foldR (exportPlain db (level + 1))
          (sortBy (fun a b => decide (a.index ≤ b.index))
            (db.tasks.filter (fun c =>
              decide (c.type = 0 ∧ c.heading = some t.uuid ∧ c.trashed = false ∧
                c.status < 2))))) ∧
    (∀ notes' dl sd cc st',
      exportTask db level
        { t with notes := notes', deadline := dl, startDate := sd,
                 checklistItemsCount := cc, start := st' } =
      exportTask db level t) := by
  constructor
  · unfold exportTask
    rw [if_pos h]
    rfl
  · intro notes' dl sd cc st'
    have h' : TaskRow.type
        { t with notes := notes', deadline := dl, startDate := sd,
                 checklistItemsCount := cc, start := st' } = 2 := h
    unfold exportTask
    rw [if_pos h, if_pos h']

/-- C5 witness: the fixture action group renders its heading line and its
single child, with its populated notes, dates and checklist count ignored. -/
theorem c5_witness :
    exportTask c5db 1 c5ag =
      seqR (indentStr 1 ++ "TODO " ++ c5ag.title ++ ":" ++ "\n", none)
        (foldR (exportPlain c5db (1 + 1))
          (sortBy (fun a b => decide (a.index ≤ b.index))
            (c5db.tasks.filter (fun c =>
              decide (c.type = 0 ∧ c.heading = some c5ag.uuid ∧ c.trashed = false ∧
                c.status < 2))))) :=
  (c5_actiongroup c5db 1 c5ag (by decide)).1

/-! ## Claim C6: checklist gating -/

/-- A task fixture whose checklist count column is NULL. -/
def c6task : TaskRow :=
  { uuid := "T6", status := 0, title := "No checklist", type := 0, notes := "",
    area := none, project := none, heading := none, deadline := none,
    startDate := none, todayIndex := none, checklistItemsCount := none,
    stopDate := none, start := none, trashed := false, index := 0 }

/-- A checklist row that exists for `c6task` even though its count is NULL. -/
def c6stray : ChecklistItemRow :=
  { uuid := "CL1", title := "ghost item", status := 0, task := "T6", index := 0 }

/-- Database for the checklist-gating fixture. -/
def c6db : ThingsDB :=
  { areas := [], tasks := [c6task], checklistItems := [c6stray], tags := [],
    taskTags := [], areaTags := [] }

/-- C6: for a non-heading task whose checklist count column is falsy (0 or
NULL), the checklist part renders nothing and the task's output does not
depend on the `TMChecklistItem` table at all (no checklist query is
consulted), regardless of whether child rows exist; when the count is
truthy, the checklist part is exactly the matching items ordered by manual
index, each rendered as `- [X] <title>` when `status > 0` and `- [ ]
<title>` otherwise. -/
theorem c6_checklist_gate (db : ThingsDB) (level : Nat) (t : TaskRow) :
    (checklistCountTruthy t.checklistItemsCount = false →
      (∀ items, exportPlain { db with checklistItems := items } level t =
        exportPlain db level t) ∧
      checklistR db t = ("", none)) ∧
    (checklistCountTruthy t.checklistItemsCount = true →
      checklistR db t =
        (String.join ((sortBy (fun a b => decide (a.index ≤ b.index))
            (db.checklistItems.filter (fun i => decide (i.task = t.uuid)))).map
          (fun i => "- [" ++ (if 0 < i.status then "X" else " ") ++ "] " ++ i.title ++ "\n")),
         none)) := by
  constructor
  · intro hf
    have hr : ∀ (d : ThingsDB), checklistR d t = ("", none) := by
      intro d
      unfold checklistR
      rw [hf]
      rfl
    refine ⟨?_, hr db⟩
    intro items
    unfold exportPlain
    rw [hr db, hr { db with checklistItems := items }]
    rfl
  · intro ht
    unfold checklistR
    rw [ht]
    rfl

/-- C6 witness: the fixture task with a NULL count renders no checklist
part, and deleting its (existing) checklist row does not change its
export. -/
theorem c6_witness :
    exportPlain { c6db with checklistItems := [] } 0 c6task = exportPlain c6db 0 c6task ∧
    checklistR c6db c6task = ("", none) := by
  obtain ⟨hall, hnone⟩ := (c6_checklist_gate c6db 0 c6task).1 (by decide)
  exact ⟨hall [], hnone⟩

/-! ## Claim C7: configuration validation -/

/-- A sample database with one area, used by driver-level witnesses. -/
def sampleDB : ThingsDB :=
  { areas := [{ uuid := "SA", title := "Sample", index := 0 }], tasks := [],
    checklistItems := [], tags := [], taskTags := [], areaTags := [] }

/-- C7: when the resolved database path does not exist, or when the
selected format is not one of "all", "project" or "area", the command stops
with the logged configuration error; the outcome is independent of the
database contents, so no connection is opened and no database access or
export output occurs. -/
theorem c7_fail_fast (fsExists : String → Bool) (fn fmt tgt : String) (db db' : ThingsDB) :
    (fsExists (resolveDatabase fn) = false →
      cmdThings2tp fsExists fn fmt tgt db =
        Outcome.configError ("database '" ++ resolveDatabase fn ++ "' does not exist!") ∧
      cmdThings2tp fsExists fn fmt tgt db = cmdThings2tp fsExists fn fmt tgt db') ∧
    (fsExists (resolveDatabase fn) = true →
      ¬ (fmt = "all" ∨ fmt = "project" ∨ fmt = "area") →
      cmdThings2tp fsExists fn fmt tgt db =
        Outcome.configError ("unknown output format: " ++ fmt) ∧
      cmdThings2tp fsExists fn fmt tgt db = cmdThings2tp fsExists fn fmt tgt db') := by
  constructor
  · intro h
    constructor
    · unfold cmdThings2tp
      rw [if_pos h]
    · unfold cmdThings2tp
      rw [if_pos h, if_pos h]
  · intro h hbad
    constructor
    · unfold cmdThings2tp
      rw [if_neg (show ¬ (fsExists (resolveDatabase fn) = false) by simp [h]),
        if_pos hbad]
    · unfold cmdThings2tp
      rw [if_neg (show ¬ (fsExists (resolveDatabase fn) = false) by simp [h]),
        if_neg (show ¬ (fsExists (resolveDatabase fn) = false) by simp [h]),
        if_pos hbad, if_pos hbad]

/-- C7 witness: a missing database file and an unknown format both stop the
command with the configuration error, independently of the database
contents. -/
theorem c7_witness :
    (cmdThings2tp (fun _ => false) "db.sqlite" "all" "T" sampleDB =
        Outcome.configError ("database '" ++ resolveDatabase "db.sqlite" ++ "' does not exist!") ∧
      cmdThings2tp (fun _ => false) "db.sqlite" "all" "T" sampleDB =
        cmdThings2tp (fun _ => false) "db.sqlite" "all" "T" emptyDB) ∧
    (cmdThings2tp (fun _ => true) "db.sqlite" "weird" "T" sampleDB =
        Outcome.configError ("unknown output format: " ++ "weird") ∧
      cmdThings2tp (fun _ => true) "db.sqlite" "weird" "T" sampleDB =
        cmdThings2tp (fun _ => true) "db.sqlite" "weird" "T" emptyDB) :=
  ⟨(c7_fail_fast (fun _ => false) "db.sqlite" "all" "T" sampleDB emptyDB).1 rfl,
    (c7_fail_fast (fun _ => true) "db.sqlite" "weird" "T" sampleDB emptyDB).2 rfl (by decide)⟩

/-! ## Claim C8: connection release -/

/-- A task whose packed deadline decodes to month 0, making the traversal
raise. -/
def c8bad : TaskRow :=
  { uuid := "T8", status := 0, title := "Bad date", type := 0, notes := "",
    area := some "A8", project := none, heading := none, deadline := some 128,
    startDate := none, todayIndex := none, checklistItemsCount := none,
    stopDate := none, start := none, trashed := false, index := 0 }

/-- Database whose traversal raises a `ValueError` mid-run. -/
def c8db : ThingsDB :=
  { areas := [{ uuid := "A8", title := "Area8", index := 0 }], tasks := [c8bad],
    checklistItems := [], tags := [], taskTags := [], areaTags := [] }

/-- C8 counterexample: on the fixture whose traversal raises a date error,
the error propagates but `con.close()` is never reached, so the connection
is not released on this exit path. -/
theorem c8_counterexample :
    (exportThings c8db).err.isSome = true ∧ (exportThings c8db).connClosed = false := by
  decide

/-- C8 (amended): the run's output and any raised traversal error propagate
to the caller unchanged (no partial-result recovery), and the connection is
closed exactly when the run completes without error — on an error exit the
missing `try`/`finally` leaves the connection unclosed. -/
theorem c8_amended_connection (db : ThingsDB) :
    (exportThings db).stdout = (exportBody db).1 ∧
    (exportThings db).err = (exportBody db).2 ∧
    ((exportThings db).connClosed = true ↔ (exportThings db).err = none) := by
  rcases hb : exportBody db with ⟨out, err⟩
  unfold exportThings
  rw [hb]
  cases err <;> simp

/-! ## Claim C3: output routing -/

/-- A database with one area, for the routing counterexample. -/
def c3db : ThingsDB :=
  { areas := [{ uuid := "A3", title := "Work", index := 0 }], tasks := [],
    checklistItems := [], tags := [], taskTags := [], areaTags := [] }

/-- C3 counterexample: in "area" mode on a database with one area, the run
does not write one file per area — it writes no files at all (the claim
would require a non-empty per-area file set). -/
theorem c3_counterexample :
    ¬ (∃ out files err,
        cmdThings2tp (fun _ => true) "db.sqlite" "area" "Things3 export" c3db =
          Outcome.ran out files err ∧ files ≠ []) := by
  rintro ⟨out, files, err, heq, hne⟩
  have h1 : (cmdThings2tp (fun _ => true) "db.sqlite" "area" "Things3 export" c3db).filesOf
      = [] := by decide
  rw [heq] at h1
  exact hne h1

/-- C3 (amended): the configured format mode does not select the output
destination.  In the "project" and "area" modes the run sends all rendered
text to the single standard-output stream and writes no per-area or
per-project files, so both modes produce identical outcomes; in "all" mode
the driver crashes on the missing `RowObject.FILE_TMPL` attribute before
the exporter runs. -/
theorem c3_amended_no_routing (fsExists : String → Bool) (fn tgt tgt' : String)
    (db : ThingsDB) (h : fsExists (resolveDatabase fn) = true) :
    cmdThings2tp fsExists fn "project" tgt db = cmdThings2tp fsExists fn "area" tgt' db ∧
    cmdThings2tp fsExists fn "project" tgt db =
      Outcome.ran (exportThings db).stdout [] (exportThings db).err ∧
    cmdThings2tp fsExists fn "all" tgt db =
      Outcome.crash "AttributeError: type object RowObject has no attribute FILE_TMPL" := by
  have hproj : cmdThings2tp fsExists fn "project" tgt db =
      Outcome.ran (exportThings db).stdout [] (exportThings db).err := by
    unfold cmdThings2tp
    rw [if_neg (show ¬ (fsExists (resolveDatabase fn) = false) by simp [h]),
      if_neg (show ¬ ¬ ("project" = "all" ∨ "project" = "project" ∨ "project" = "area")
        by decide),
      if_neg (show ¬ ("project" = "all") by decide)]
  have harea : cmdThings2tp fsExists fn "area" tgt' db =
      Outcome.ran (exportThings db).stdout [] (exportThings db).err := by
    unfold cmdThings2tp
    rw [if_neg (show ¬ (fsExists (resolveDatabase fn) = false) by simp [h]),
      if_neg (show ¬ ¬ ("area" = "all" ∨ "area" = "project" ∨ "area" = "area") by decide),
      if_neg (show ¬ ("area" = "all") by decide)]
  have hall : cmdThings2tp fsExists fn "all" tgt db =
      Outcome.crash "AttributeError: type object RowObject has no attribute FILE_TMPL" := by
    unfold cmdThings2tp
    rw [if_neg (show ¬ (fsExists (resolveDatabase fn) = false) by simp [h]),
      if_neg (show ¬ ¬ ("all" = "all" ∨ "all" = "project" ∨ "all" = "area") by decide),
      if_pos (show ("all" : String) = "all" from rfl)]
  exact ⟨hproj.trans harea.symm, hproj, hall⟩

/-- C3 amended witness: on the sample database the "project" and "area"
modes give the same single-stream outcome with no files, and the "all" mode
crashes on the missing attribute. -/
theorem c3_amended_witness :
    cmdThings2tp (fun _ => true) "db.sqlite" "project" "T" sampleDB =
      cmdThings2tp (fun _ => true) "db.sqlite" "area" "U" sampleDB ∧
    cmdThings2tp (fun _ => true) "db.sqlite" "project" "T" sampleDB =
      Outcome.ran (exportThings sampleDB).stdout [] (exportThings sampleDB).err ∧
    cmdThings2tp (fun _ => true) "db.sqlite" "all" "T" sampleDB =
      Outcome.crash "AttributeError: type object RowObject has no attribute FILE_TMPL" :=
  c3_amended_no_routing (fun _ => true) "db.sqlite" "T" "U" sampleDB rfl

end Things3
